import Mathlib

/-
  Verification of the ms_clan_store microservice (src/service/main.py).

  The service keeps two redis namespaces: db 1 maps clan ids to clan tags
  (IdIndex) and db 2 maps clan tags back to clan ids (TagIndex).  We embed
  each redis namespace as an association list; `tget`, `tset` and `tdel`
  mirror redis GET, SET and DEL (DEL of an absent key is a no-op, SET
  overwrites in place, key enumeration follows the list order).  The four
  handlers add_clan, delete_clan, list_clans and update_clans are embedded
  as pure functions over this state, returning the HTTP status codes the
  handlers produce.
-/

namespace ClanStore

/-- Pydantic model `ClanModel` from src/service/main.py: a clan id together
with its clan tag. -/
structure ClanModel where
  clan_id : Nat
  clan_tag : String
deriving DecidableEq

/-- One redis namespace, embedded as an association list from keys to
values.  Enumeration order of keys is the list order. -/
abbrev Table (k v : Type) : Type := List (k × v)

/-- Redis GET: the value stored under the first occurrence of the key,
or `none` when the key is absent. -/
def tget {k v : Type} [DecidableEq k] : Table k v → k → Option v
  | [], _ => none
  | (k0, v0) :: rest, key => if k0 = key then some v0 else tget rest key

/-- Redis SET: overwrite the value stored under the key, or append a fresh
entry when the key is absent. -/
def tset {k v : Type} [DecidableEq k] : Table k v → k → v → Table k v
  | [], key, val => [(key, val)]
  | (k0, v0) :: rest, key, val =>
      if k0 = key then (key, val) :: rest else (k0, v0) :: tset rest key val

/-- Redis DEL: remove every entry stored under the key; a no-op when the
key is absent. -/
def tdel {k v : Type} [DecidableEq k] : Table k v → k → Table k v
  | [], _ => []
  | (k0, v0) :: rest, key =>
      if k0 = key then tdel rest key else (k0, v0) :: tdel rest key

/-- Redis KEYS: the keys of the table, in enumeration order. -/
def tkeys {k v : Type} (t : Table k v) : List k :=
  t.map Prod.fst

/-- The whole store: redis db 1 (`ids`, IdIndex, clan id to clan tag) and
redis db 2 (`tags`, TagIndex, clan tag to clan id). -/
structure Store where
  ids : Table Nat String
  tags : Table String Nat
deriving DecidableEq

/-- Handler `add_clan` (PUT /clans, src/service/main.py lines 90-104): it
unconditionally writes id to tag into db 1 and tag to id into db 2, then
returns HTTP 201, with no check whether the id already existed. -/
def add_clan (s : Store) (new_clan : ClanModel) : Store × Nat :=
  (⟨tset s.ids new_clan.clan_id new_clan.clan_tag,
    tset s.tags new_clan.clan_tag new_clan.clan_id⟩, 201)

/-- Handler `delete_clan` (DELETE /clans, src/service/main.py lines
108-122): it unconditionally deletes the caller-supplied id from db 1 and
the caller-supplied tag from db 2, then returns HTTP 200, with no
existence check. -/
def delete_clan (s : Store) (new_clan : ClanModel) : Store × Nat :=
  (⟨tdel s.ids new_clan.clan_id, tdel s.tags new_clan.clan_tag⟩, 200)

/-- The loop of handler `list_clans` (src/service/main.py lines 137-149),
parametrised over the two store calls the code makes: the key enumeration
(`db_ids.keys()`) and the per-key lookup (`db_ids.get`).  A key whose
lookup returns `none` raises HTTP 500 naming that id and aborts the whole
operation; otherwise every enumerated id contributes one clan, in
enumeration order.  `Except.error i` stands for the HTTP 500 response
whose detail names clan id `i`. -/
def list_clans_loop (get : Nat → Option String) : List Nat → Except Nat (List ClanModel)
  | [] => Except.ok []
  | clan_id :: rest =>
      match get clan_id with
      | none => Except.error clan_id
      | some clan_tag =>
          match list_clans_loop get rest with
          | Except.error i => Except.error i
          | Except.ok tl => Except.ok (⟨clan_id, clan_tag⟩ :: tl)

/-- Handler `list_clans` (GET /clans, src/service/main.py lines 131-149):
the loop above run over db 1 only; the handler receives no connection to
db 2. -/
def list_clans (s : Store) : Except Nat (List ClanModel) :=
  list_clans_loop (tget s.ids) (tkeys s.ids)

/-- The upstream fetch `update_clan` (src/service/main.py lines 71-81),
as an oracle: `none` models any exception raised there (network error,
non-2xx status via raise_for_status, malformed payload), `some c` the
parsed ClanModel of a 2xx response. -/
def Fetch : Type := Nat → Option ClanModel

/-- One iteration of the `update_clans` loop body (src/service/main.py
lines 170-192) for one clan id: returns the store after the iteration and
the entry appended to `failed_updates`, if any.  An unreadable stored tag
records `(id, "???")`; a failed fetch records `(id, old_tag)`; a fetch
whose tag equals the stored one leaves the store untouched; a changed tag
deletes the old tag key in db 2 and writes the fetched clan into both
tables (keyed, as in the code, by the fetched clan id). -/
def refresh_step (fetch : Fetch) (s : Store) (clan_id : Nat) :
    Store × Option (Nat × String) :=
  match tget s.ids clan_id with
  | none => (s, some (clan_id, "???"))
  | some old_clan_tag =>
      match fetch clan_id with
      | none => (s, some (clan_id, old_clan_tag))
      | some new_clan =>
          if new_clan.clan_tag = old_clan_tag then (s, none)
          else
            (⟨tset s.ids new_clan.clan_id new_clan.clan_tag,
              tset (tdel s.tags old_clan_tag) new_clan.clan_tag new_clan.clan_id⟩,
             none)

/-- The `update_clans` loop (src/service/main.py lines 170-192) over a
list of clan ids: threads the store through `refresh_step` and collects
`failed_updates` in order. -/
def refresh_loop (fetch : Fetch) (s : Store) : List Nat → Store × List (Nat × String)
  | [] => (s, [])
  | clan_id :: rest =>
      let p := refresh_step fetch s clan_id
      let q := refresh_loop fetch p.1 rest
      (q.1, p.2.toList ++ q.2)

/-- Handler `update_clans` (POST /clans, src/service/main.py lines
158-200): snapshots the keys of db 1, runs the refresh loop, and then —
with the inverted condition exactly as in the code (line 194:
`if len(failed_updates) == 0`) — raises HTTP 500 when `failed_updates` is
empty and returns HTTP 200 otherwise.  The result carries the final
store, the status code and the recorded failures. -/
def update_clans (fetch : Fetch) (s : Store) : Store × Nat × List (Nat × String) :=
  let r := refresh_loop fetch s (tkeys s.ids)
  if r.2.length = 0 then (r.1, 500, r.2) else (r.1, 200, r.2)

/-- Handler `get_clan` (GET /clans/tag, src/service/main.py lines
209-221): looks the tag up in db 2; absent tags yield HTTP 404. -/
def get_clan (s : Store) (clan_tag : String) : Except Nat ClanModel :=
  match tget s.tags clan_tag with
  | none => Except.error 404
  | some clan_id => Except.ok ⟨clan_id, clan_tag⟩

/-- Dual-index consistency invariant from the spec: every stored id to tag
entry is mirrored by the tag to id table and conversely. -/
def Consistent (s : Store) : Prop :=
  (∀ p ∈ s.ids, tget s.tags p.2 = some p.1) ∧
  (∀ q ∈ s.tags, tget s.ids q.2 = some q.1)

instance (s : Store) : Decidable (Consistent s) := by
  unfold Consistent
  infer_instance

/-! Helper lemmas about the table operations. -/

theorem tget_tset_self {k v : Type} [DecidableEq k] (t : Table k v) (key : k) (val : v) :
    tget (tset t key val) key = some val := by
  induction t with
  | nil => simp [tget, tset]
  | cons hd tl ih =>
      obtain ⟨k0, v0⟩ := hd
      by_cases h : k0 = key
      · simp [tget, tset, h]
      · simp [tget, tset, h, ih]

theorem tget_tset_ne {k v : Type} [DecidableEq k] (t : Table k v) (key key' : k) (val : v)
    (h : key' ≠ key) : tget (tset t key val) key' = tget t key' := by
  induction t with
  | nil => simp [tget, tset, Ne.symm h]
  | cons hd tl ih =>
      obtain ⟨k0, v0⟩ := hd
      by_cases hk : k0 = key
      · subst hk
        simp [tget, tset, Ne.symm h]
      · simp [tget, tset, hk, ih]

theorem tget_tdel_self {k v : Type} [DecidableEq k] (t : Table k v) (key : k) :
    tget (tdel t key) key = none := by
  induction t with
  | nil => simp [tget, tdel]
  | cons hd tl ih =>
      obtain ⟨k0, v0⟩ := hd
      by_cases h : k0 = key
      · simp [tdel, h, ih]
      · simp [tget, tdel, h, ih]

theorem tget_tdel_ne {k v : Type} [DecidableEq k] (t : Table k v) (key key' : k)
    (h : key' ≠ key) : tget (tdel t key) key' = tget t key' := by
  induction t with
  | nil => simp [tdel]
  | cons hd tl ih =>
      obtain ⟨k0, v0⟩ := hd
      by_cases hk : k0 = key
      · subst hk
        simp [tget, tdel, Ne.symm h, ih]
      · simp [tget, tdel, hk, ih]

theorem mem_tset {k v : Type} [DecidableEq k] (t : Table k v) (key : k) (val : v)
    (p : k × v) (hp : p ∈ tset t key val) : p = (key, val) ∨ p ∈ t := by
  induction t with
  | nil =>
      simp [tset] at hp
      exact Or.inl hp
  | cons hd tl ih =>
      obtain ⟨k0, v0⟩ := hd
      by_cases h : k0 = key
      · simp [tset, h] at hp
        rcases hp with hp1 | hp1
        · exact Or.inl hp1
        · exact Or.inr (List.mem_cons_of_mem _ hp1)
      · simp [tset, h] at hp
        rcases hp with hp1 | hp1
        · exact Or.inr (by simp [hp1])
        · rcases ih hp1 with h1 | h1
          · exact Or.inl h1
          · exact Or.inr (List.mem_cons_of_mem _ h1)

/-! Claim theorems. -/

/-- Store holding the single clan (1, "TEST") with both indexes in
agreement, used as a concrete evaluation point. -/
def s_test : Store := ⟨[(1, "TEST")], [("TEST", 1)]⟩

/-- Store obtained by upserting (1,"TEST"), (2,"TE2T"), (3,"T3ST"),
(4,"T4ST") in that order into the empty store. -/
def s_four : Store :=
  (add_clan (add_clan (add_clan (add_clan ⟨[], []⟩ ⟨1, "TEST"⟩).1
    ⟨2, "TE2T"⟩).1 ⟨3, "T3ST"⟩).1 ⟨4, "T4ST"⟩).1

/-- C1: the refresh handler's failure check is inverted in the code
(src/service/main.py line 194 reads `if len(failed_updates) == 0`): a
batch in which the single clan's upstream fetch fails records the failure
yet responds 200, and a batch with no failures at all responds 500 with an
empty failure list — the opposite of the claimed aggregate-500-iff-some-
failure behaviour. -/
theorem C1_refresh_failure_check_inverted :
    update_clans (fun _ => none) s_test = (s_test, 200, [(1, "TEST")])
  ∧ update_clans (fun i => some ⟨i, "TEST"⟩) s_test = (s_test, 500, []) := by
  constructor <;> rfl

/-- C2: the upsert handler returns 201 unconditionally: evaluating
add_clan on a store that already holds clan id 1 shows the id is present,
the overwrite of both indexes is performed, and yet the status is 201, not
the claimed distinct 200 "already existed" outcome (which the repository's
own test test_add_clan_existing asserts). -/
theorem C2_upsert_always_201 :
    tget s_test.ids 1 = some "TEST"
  ∧ add_clan s_test ⟨1, "TEST"⟩ = (s_test, 201) := by
  constructor <;> rfl

/-- C3: the delete handler performs no existence check: deleting the
unknown clan id 2 from a store holding only clan 1 returns 200 rather
than the claimed 404 (asserted by the repository's test
test_delete_clan_error), and when the unknown id is paired with a stored
tag the failed request even erases that tag from TagIndex, so the store
is not left unchanged either. -/
theorem C3_delete_unknown_returns_200 :
    tget s_test.ids 2 = none
  ∧ delete_clan s_test ⟨2, "TE2T"⟩ = (s_test, 200)
  ∧ delete_clan s_test ⟨2, "TEST"⟩ = (⟨[(1, "TEST")], []⟩, 200) := by
  refine ⟨rfl, rfl, rfl⟩

/-- C4: the list handler never sorts: after storing (1,"TEST"),
(2,"TE2T"), (3,"T3ST"), (4,"T4ST"), list_clans returns the clans in the
key-enumeration order of IdIndex — tags ["TEST","TE2T","T3ST","T4ST"] —
and not in the ascending tag order ["T3ST","T4ST","TE2T","TEST"] that the
claim (and the repository's test test_list_clans) states. -/
theorem C4_list_not_sorted_by_tag :
    list_clans s_four
      = Except.ok [⟨1, "TEST"⟩, ⟨2, "TE2T"⟩, ⟨3, "T3ST"⟩, ⟨4, "T4ST"⟩]
  ∧ list_clans s_four
      ≠ Except.ok [⟨3, "T3ST"⟩, ⟨4, "T4ST"⟩, ⟨2, "TE2T"⟩, ⟨1, "TEST"⟩] := by
  constructor
  · rfl
  · intro h
    simp [list_clans, s_four, add_clan, tset, tkeys, tget, list_clans_loop] at h

/-- C10: the list operation depends only on the contents of IdIndex: two
stores with the same IdIndex and arbitrary TagIndex contents produce
identical list_clans results (and the handler, receiving only the id
table, performs no writes at all by construction). -/
theorem C10_list_depends_only_on_ids (ids : Table Nat String)
    (tags1 tags2 : Table String Nat) :
    list_clans ⟨ids, tags1⟩ = list_clans ⟨ids, tags2⟩ := rfl

/-- C5 counterexample: the claim fails on re-adding an existing id with a
different tag.  The consistent one-clan store mapping 1 to "A" becomes
inconsistent after add_clan of (1, "B"): the handler never removes the old
entry "A" to 1 from TagIndex, leaving an orphaned half-entry. -/
theorem C5_counterexample_retag_orphans_old_tag :
    Consistent ⟨[(1, "A")], [("A", 1)]⟩
  ∧ ¬ Consistent (add_clan ⟨[(1, "A")], [("A", 1)]⟩ ⟨1, "B"⟩).1 := by
  decide

/-- C5 (amended): upsert preserves the dual-index invariant provided the
upserted clan_id is not currently stored with a different tag and the
clan_tag is not currently stored with a different id — in particular for
every fresh clan and for exact re-adds of a stored pair. -/
theorem C5_upsert_preserves_invariant (s : Store) (c : ClanModel)
    (hC : Consistent s)
    (hid : ∀ t, tget s.ids c.clan_id = some t → t = c.clan_tag)
    (htag : ∀ i, tget s.tags c.clan_tag = some i → i = c.clan_id) :
    Consistent (add_clan s c).1 := by
  obtain ⟨h1, h2⟩ := hC
  constructor
  · intro p hp
    rcases mem_tset s.ids c.clan_id c.clan_tag p hp with hp1 | hp1
    · rw [hp1]
      exact tget_tset_self s.tags c.clan_tag c.clan_id
    · by_cases ht : p.2 = c.clan_tag
      · have hm := h1 p hp1
        rw [ht] at hm
        have hpi := htag p.1 hm
        show tget (tset s.tags c.clan_tag c.clan_id) p.2 = some p.1
        rw [ht, hpi]
        exact tget_tset_self s.tags c.clan_tag c.clan_id
      · show tget (tset s.tags c.clan_tag c.clan_id) p.2 = some p.1
        rw [tget_tset_ne s.tags c.clan_tag p.2 c.clan_id ht]
        exact h1 p hp1
  · intro q hq
    rcases mem_tset s.tags c.clan_tag c.clan_id q hq with hq1 | hq1
    · rw [hq1]
      exact tget_tset_self s.ids c.clan_id c.clan_tag
    · by_cases hi : q.2 = c.clan_id
      · have hm := h2 q hq1
        rw [hi] at hm
        have hqt := hid q.1 hm
        show tget (tset s.ids c.clan_id c.clan_tag) q.2 = some q.1
        rw [hi, hqt]
        exact tget_tset_self s.ids c.clan_id c.clan_tag
      · show tget (tset s.ids c.clan_id c.clan_tag) q.2 = some q.1
        rw [tget_tset_ne s.ids c.clan_id q.2 c.clan_tag hi]
        exact h2 q hq1

/-- C5 witness: the amended preservation theorem applied to the concrete
consistent store mapping 1 to "A" and the fresh clan (2, "B"). -/
theorem C5_upsert_preserves_invariant_witness :
    Consistent (add_clan ⟨[(1, "A")], [("A", 1)]⟩ ⟨2, "B"⟩).1 :=
  C5_upsert_preserves_invariant ⟨[(1, "A")], [("A", 1)]⟩ ⟨2, "B"⟩ (by decide)
    (fun t h => by simp [tget] at h)
    (fun i h => by simp [tget] at h)

/-- C6: deleting a known clan id succeeds with 200, removes the id's
entry from IdIndex and the caller-supplied tag's entry from TagIndex, and
touches no other TagIndex entry — in particular the tag actually stored
under the id survives whenever it differs from the payload tag, showing
the handler uses the request payload's tag, never a re-read one. -/
theorem C6_delete_known_uses_payload_tag (s : Store) (c : ClanModel)
    (_h : (tget s.ids c.clan_id).isSome) :
    (delete_clan s c).2 = 200
  ∧ tget (delete_clan s c).1.ids c.clan_id = none
  ∧ tget (delete_clan s c).1.tags c.clan_tag = none
  ∧ ∀ t, t ≠ c.clan_tag → tget (delete_clan s c).1.tags t = tget s.tags t := by
  refine ⟨rfl, ?_, ?_, ?_⟩
  · exact tget_tdel_self s.ids c.clan_id
  · exact tget_tdel_self s.tags c.clan_tag
  · intro t ht
    exact tget_tdel_ne s.tags c.clan_tag t ht

/-- C6 witness: the delete theorem applied to the concrete store holding
clan (1, "TEST") and the matching delete request. -/
theorem C6_delete_known_uses_payload_tag_witness :
    (delete_clan s_test ⟨1, "TEST"⟩).2 = 200
  ∧ tget (delete_clan s_test ⟨1, "TEST"⟩).1.ids 1 = none
  ∧ tget (delete_clan s_test ⟨1, "TEST"⟩).1.tags "TEST" = none :=
  ⟨(C6_delete_known_uses_payload_tag s_test ⟨1, "TEST"⟩ (by decide)).1,
   (C6_delete_known_uses_payload_tag s_test ⟨1, "TEST"⟩ (by decide)).2.1,
   (C6_delete_known_uses_payload_tag s_test ⟨1, "TEST"⟩ (by decide)).2.2.1⟩

/-- C7: the list loop fails as a whole, with the HTTP 500 error naming
the first enumerated id whose lookup returns no stored tag, and when
every enumerated id resolves it succeeds with one clan per id in order —
no id is ever silently skipped.  The loop is parametrised over the two
store calls the handler makes (key enumeration and per-key lookup), since
only their disagreement can exercise the failure branch. -/
theorem C7_list_fails_whole_on_missing_tag (get : Nat → Option String)
    (ids : List Nat) :
    ((∀ i ∈ ids, (get i).isSome) →
       list_clans_loop get ids
         = Except.ok (ids.map fun i => ⟨i, (get i).getD ""⟩))
  ∧ (∀ j, ids.find? (fun i => (get i).isNone) = some j →
       list_clans_loop get ids = Except.error j) := by
  induction ids with
  | nil =>
      constructor
      · intro _
        rfl
      · intro j hj
        simp at hj
  | cons i rest ih =>
      constructor
      · intro hall
        have hi := hall i (List.mem_cons_self i rest)
        obtain ⟨t, ht⟩ := Option.isSome_iff_exists.mp hi
        have hrest := ih.1 (fun x hx => hall x (List.mem_cons_of_mem i hx))
        simp [list_clans_loop, ht, hrest]
      · intro j hj
        cases hgi : get i with
        | none =>
            rw [List.find?_cons_of_pos rest (by simp [hgi])] at hj
            have hij : i = j := Option.some.inj hj
            subst hij
            simp [list_clans_loop, hgi]
        | some t =>
            rw [List.find?_cons_of_neg rest (by simp [hgi])] at hj
            have hrest := ih.2 j hj
            simp [list_clans_loop, hgi, hrest]

/-- C7 witness: on the store holding clan (1, "TEST"), the loop over the
consistent enumeration [1] yields the full clan list, and over the
enumeration [1, 2] — where id 2 has no stored tag — it fails as a whole
naming id 2. -/
theorem C7_list_fails_whole_on_missing_tag_witness :
    list_clans_loop (tget s_test.ids) [1] = Except.ok [⟨1, "TEST"⟩]
  ∧ list_clans_loop (tget s_test.ids) [1, 2] = Except.error 2 :=
  ⟨(C7_list_fails_whole_on_missing_tag (tget s_test.ids) [1]).1 (by decide),
   (C7_list_fails_whole_on_missing_tag (tget s_test.ids) [1, 2]).2 2 (by decide)⟩

/-- C8: refresh handles each per-id failure without aborting the batch:
an id with no readable stored tag is recorded as a failed update with the
placeholder marker "???", an id whose upstream fetch fails is recorded
retaining the last known-good stored tag, and in either case the batch
over the remaining ids continues from the unchanged store with the
failure entry prepended to the recorded failures. -/
theorem C8_refresh_records_failures_and_continues (fetch : Fetch) (s : Store)
    (clan_id : Nat) (rest : List Nat) :
    (tget s.ids clan_id = none →
       refresh_step fetch s clan_id = (s, some (clan_id, "???"))
     ∧ refresh_loop fetch s (clan_id :: rest)
         = ((refresh_loop fetch s rest).1,
            (clan_id, "???") :: (refresh_loop fetch s rest).2))
  ∧ (∀ old_tag, tget s.ids clan_id = some old_tag → fetch clan_id = none →
       refresh_step fetch s clan_id = (s, some (clan_id, old_tag))
     ∧ refresh_loop fetch s (clan_id :: rest)
         = ((refresh_loop fetch s rest).1,
            (clan_id, old_tag) :: (refresh_loop fetch s rest).2)) := by
  constructor
  · intro h
    have hstep : refresh_step fetch s clan_id = (s, some (clan_id, "???")) := by
      simp [refresh_step, h]
    exact ⟨hstep, by simp [refresh_loop, hstep]⟩
  · intro old_tag h1 h2
    have hstep : refresh_step fetch s clan_id = (s, some (clan_id, old_tag)) := by
      simp [refresh_step, h1, h2]
    exact ⟨hstep, by simp [refresh_loop, hstep]⟩

/-- C8 witness: with an upstream that always fails, on the store holding
clan (2, "B") the unreadable id 1 records the placeholder failure and the
fetch-failing id 2 records the failure retaining the stored tag "B", and
the two-id batch [1, 2] still processes both. -/
theorem C8_refresh_records_failures_and_continues_witness :
    refresh_step (fun _ => none) ⟨[(2, "B")], [("B", 2)]⟩ 1
      = (⟨[(2, "B")], [("B", 2)]⟩, some (1, "???"))
  ∧ refresh_loop (fun _ => none) ⟨[(2, "B")], [("B", 2)]⟩ [1, 2]
      = (⟨[(2, "B")], [("B", 2)]⟩,
         [(1, "???"),
          (2, "B")]) :=
  ⟨((C8_refresh_records_failures_and_continues (fun _ => none)
      ⟨[(2, "B")], [("B", 2)]⟩ 1 []).1 (by decide)).1,
   by
    have h1 := ((C8_refresh_records_failures_and_continues (fun _ => none)
      ⟨[(2, "B")], [("B", 2)]⟩ 1 [2]).1 (by decide)).2
    have h2 := ((C8_refresh_records_failures_and_continues (fun _ => none)
      ⟨[(2, "B")], [("B", 2)]⟩ 2 []).2 "B" (by decide) rfl).2
    rw [h1, h2]
    rfl⟩

/-- C9: for an id whose stored tag is readable and whose upstream fetch
succeeds, refresh is a no-op on the store when the fetched tag equals the
stored one, and when it differs it removes the old tag's TagIndex entry
and writes the fetched clan into both tables, after which both tables
resolve the new tag. -/
theorem C9_refresh_frame_and_retag (fetch : Fetch) (s : Store) (clan_id : Nat)
    (old_tag : String) (c : ClanModel)
    (hold : tget s.ids clan_id = some old_tag) (hf : fetch clan_id = some c) :
    (c.clan_tag = old_tag → refresh_step fetch s clan_id = (s, none))
  ∧ (c.clan_tag ≠ old_tag →
       refresh_step fetch s clan_id
         = (⟨tset s.ids c.clan_id c.clan_tag,
             tset (tdel s.tags old_tag) c.clan_tag c.clan_id⟩, none)
     ∧ tget (refresh_step fetch s clan_id).1.ids c.clan_id = some c.clan_tag
     ∧ tget (refresh_step fetch s clan_id).1.tags c.clan_tag = some c.clan_id) := by
  constructor
  · intro he
    simp [refresh_step, hold, hf, he]
  · intro hne
    have hstep : refresh_step fetch s clan_id
        = (⟨tset s.ids c.clan_id c.clan_tag,
            tset (tdel s.tags old_tag) c.clan_tag c.clan_id⟩, none) := by
      simp [refresh_step, hold, hf, hne]
    refine ⟨hstep, ?_, ?_⟩
    · rw [hstep]
      exact tget_tset_self s.ids c.clan_id c.clan_tag
    · rw [hstep]
      exact tget_tset_self (tdel s.tags old_tag) c.clan_tag c.clan_id

/-- C9 witness: on the store holding clan (1, "TEST"), an upstream
returning the unchanged tag leaves the store untouched, and an upstream
returning the new tag "NEW" re-points both tables. -/
theorem C9_refresh_frame_and_retag_witness :
    refresh_step (fun i => some ⟨i, "TEST"⟩) s_test 1 = (s_test, none)
  ∧ refresh_step (fun i => some ⟨i, "NEW"⟩) s_test 1
      = (⟨[(1, "NEW")], [("NEW", 1)]⟩, none) :=
  ⟨(C9_refresh_frame_and_retag (fun i => some ⟨i, "TEST"⟩) s_test 1 "TEST"
      ⟨1, "TEST"⟩ rfl rfl).1 rfl,
   ((C9_refresh_frame_and_retag (fun i => some ⟨i, "NEW"⟩) s_test 1 "TEST"
      ⟨1, "NEW"⟩ rfl rfl).2 (by decide)).1⟩

end ClanStore
